import Mathlib

/-!
Verification development for the Wan2.2-Animate-Mix video face-swapper.

The definitions below are a shallow embedding of the Python source under
`wan22_video_processor/`: configuration constants and the pricing function
(`config/settings.py`), the poll loop and retry wrapper
(`processors/wan_processor.py`), the image and video validators
(`validators/image_validator.py`, `validators/video_validator.py`),
the uploader (`uploaders/oss_uploader.py`) and the orchestrator
(`orchestrator.py`).  Machine floats of the source are embedded as exact
rationals; filesystem and network effects are passed in explicitly as the
outcomes the corresponding Python call would produce.
-/

namespace Wan22

/-! ## Configuration constants (config/settings.py) -/

namespace Config

def IMAGE_FORMATS : List String := ["jpg", "jpeg", "png", "bmp", "webp"]
def IMAGE_MIN_SIZE : Nat := 200
def IMAGE_MAX_SIZE : Nat := 4096
def IMAGE_MAX_FILE_SIZE : Nat := 5 * 1024 * 1024
/-- Embeds the source constant for the minimum aspect bound, 1 / 3. -/
def IMAGE_MIN_ASPECT : ℚ := 1 / 3
/-- Embeds the source constant for the maximum aspect bound, 3 / 1. -/
def IMAGE_MAX_ASPECT : ℚ := 3 / 1

def VIDEO_FORMATS : List String := ["mp4", "avi", "mov"]
def VIDEO_MIN_SIZE : Nat := 200
def VIDEO_MAX_SIZE : Nat := 2048
def VIDEO_MIN_DURATION : ℚ := 2
def VIDEO_MAX_DURATION : ℚ := 30
def VIDEO_MAX_FILE_SIZE : Nat := 200 * 1024 * 1024
def VIDEO_MIN_ASPECT : ℚ := 1 / 3
def VIDEO_MAX_ASPECT : ℚ := 3 / 1

/-- Default of `DEFAULT_MODE = os.getenv("DEFAULT_MODE", "wan-std")`. -/
def DEFAULT_MODE : String := "wan-std"

/-- The `PRICING` dictionary: RMB per second for each mode.
`Python dict.get` lookup is embedded as an `Option`-valued map. -/
def PRICING (mode : String) : Option ℚ :=
  if mode = "wan-std" then some (6 / 10)
  else if mode = "wan-pro" then some (9 / 10)
  else none

/-- Embeds `Config.get_mode_price`: `PRICING.get(mode, PRICING["wan-std"])`,
falling back to the `wan-std` rate for a mode not in the dictionary. -/
def get_mode_price (mode : String) : ℚ :=
  (PRICING mode).getD (6 / 10)

/-- Embeds `Config.estimate_cost(video_duration, mode=None)`: a `none` mode is
replaced by `DEFAULT_MODE`, then duration times per-second price. -/
def estimate_cost (video_duration : ℚ) (mode : Option String) : ℚ :=
  video_duration * get_mode_price (mode.getD DEFAULT_MODE)

end Config

/-! ## Retry wrapper (Wan22Processor.retry_with_backoff) -/

/-- The body of `retry_with_backoff`: `outcome i` is what the wrapped call
returns (`.ok`) or raises (`.error`) on its `i`-th invocation, 0-based.
`fuel` is the number of loop iterations left (`max_retries - attempt`).
Returns the list of back-off sleeps performed, in order, and either the
successful value or the exception finally re-raised.  `Except.error none`
models `raise last_exception` with `last_exception` still `None`, which
only happens when `max_retries = 0`. -/
def retryGo {E A : Type} (outcome : Nat → Except E A) (backoff : ℚ) :
    Nat → Nat → List ℚ × Except (Option E) A
  | _, 0 => ([], .error none)
  | attempt, 1 =>
    match outcome attempt with
    | .ok a => ([], .ok a)
    | .error e => ([], .error (some e))
  | attempt, fuel + 2 =>
    match outcome attempt with
    | .ok a => ([], .ok a)
    | .error _ =>
      let rest := retryGo outcome backoff (attempt + 1) (fuel + 1)
      (backoff ^ attempt :: rest.1, rest.2)

/-- Embeds `Wan22Processor.retry_with_backoff`: run the wrapped call up to
`maxRetries` times; after each failure except the last, sleep
`backoff ^ attempt`; on exhaustion re-raise the last exception unchanged. -/
def retry_with_backoff {E A : Type} (outcome : Nat → Except E A)
    (maxRetries : Nat) (backoff : ℚ) : List ℚ × Except (Option E) A :=
  retryGo outcome backoff 0 maxRetries

/-! ## Poll loop (Wan22Processor.wait_for_task) -/

/-- One job snapshot as returned by `query_task` (`result["output"]`).
Absent JSON fields are `none`. -/
structure TaskInfo where
  task_status : Option String
  code : Option String
  message : Option String
  results_video_url : Option String
  usage_video_duration : Option ℚ
deriving DecidableEq, Repr

/-- Embeds `task_info.get("task_status", TaskStatus.UNKNOWN)`. -/
def TaskInfo.status (info : TaskInfo) : String :=
  info.task_status.getD "UNKNOWN"

/-- What a single iteration of the `wait_for_task` loop decides after
querying the job. -/
inductive PollAction where
  | success (info : TaskInfo)
  | failure (msg : String)
  | continuePolling
deriving DecidableEq, Repr

/-- The status dispatch of one `wait_for_task` iteration
(`wan_processor.py` lines 249-271): `SUCCEEDED` returns the snapshot,
`FAILED`/`CANCELED`/`UNKNOWN` raise an `APIError`, `PENDING`/`RUNNING`
sleep and poll again, and any other status also sleeps and polls again
(the final `else` branch logs a warning and sleeps). -/
def waitStep (info : TaskInfo) : PollAction :=
  if info.status = "SUCCEEDED" then .success info
  else if info.status = "FAILED" then
    .failure ("Task failed [" ++ info.code.getD "UNKNOWN" ++ "]: " ++
      info.message.getD "Task failed")
  else if info.status = "CANCELED" then .failure "Task was canceled"
  else if info.status = "UNKNOWN" then .failure "Task not found or status unknown"
  else .continuePolling

/-- The `wait_for_task` loop over the successive snapshots `query_task`
would return.  The list length models the deadline: the source checks
`elapsed > timeout` at the top of each iteration, so exhausting the list
is the timeout `APIError`.  Returns the sleeps performed (one
`interval`-long sleep per non-terminal poll) and the outcome. -/
def waitRun (interval : ℚ) : List TaskInfo → List ℚ × Except String TaskInfo
  | [] => ([], .error "Task timeout")
  | info :: rest =>
    match waitStep info with
    | .success i => ([], .ok i)
    | .failure msg => ([], .error msg)
    | .continuePolling =>
      let r := waitRun interval rest
      (interval :: r.1, r.2)

/-! ## File-size pretty-printer (FileHandler.format_file_size) -/

/-- Renders a nonnegative rational with two decimal places.  The source
goes through Python float formatting, which banker-rounds; this embedding
truncates, which can differ in the last printed digit only. -/
def twoDecimals (q : ℚ) : String :=
  let n : Int := ⌊q * 100⌋
  let whole := n / 100
  let frac := (n % 100).toNat
  toString whole ++ "." ++ (if frac < 10 then "0" else "") ++ toString frac

/-- The unit loop of `FileHandler.format_file_size`. -/
def formatGo : ℚ → List String → String
  | q, [] => twoDecimals q ++ " PB"
  | q, u :: us => if q < 1024 then twoDecimals q ++ " " ++ u else formatGo (q / 1024) us

/-- Embeds `FileHandler.format_file_size`. -/
def format_file_size (size_bytes : ℚ) : String :=
  formatGo size_bytes ["B", "KB", "MB", "GB", "TB"]

/-! ## Face check (ImageValidator._check_faces, VideoValidator._check_first_frame_face) -/

/-- The possible outcomes of the optional single-face check.  `pass`
covers the detector being absent, a detection exception (soft skip) and
exactly one detected face; the others are its failure returns. -/
inductive FaceCheck where
  | pass
  | readFailed
  | noFace
  | multipleFaces (count : Nat)
deriving DecidableEq, Repr

/-- The `(is_valid, error_message)` pair `ImageValidator._check_faces`
returns for each outcome. -/
def FaceCheck.imageResult : FaceCheck → Bool × Option String
  | .pass => (true, none)
  | .readFailed => (false, some "Failed to read image for face detection")
  | .noFace => (false, some
      "No face detected in image. Please ensure the image contains a clear, visible face.")
  | .multipleFaces n => (false, some
      ("Multiple faces detected (" ++ toString n ++ "). Image must contain exactly 1 face."))

/-- The pair `VideoValidator._check_first_frame_face` returns. -/
def FaceCheck.videoResult : FaceCheck → Bool × Option String
  | .pass => (true, none)
  | .readFailed => (false, some "Failed to read first frame for face detection")
  | .noFace => (false, some
      "No face detected in first frame of video. Please ensure the video shows a clear face.")
  | .multipleFaces n => (false, some
      ("Multiple faces detected in first frame (" ++ toString n ++
        "). Video must show exactly 1 face."))

/-! ## Image validator (validators/image_validator.py) -/

/-- The filesystem facts `ImageValidator.validate` consults about one
path: `sizeResult` is what `os.path.getsize` returns or raises,
`decodeResult` what `PIL.Image.open` plus `.size` yields, `faceCheck`
the outcome the face check would report. -/
structure ImageFile where
  path : String
  fileFound : Bool
  extension : String
  sizeResult : Except String Nat
  decodeResult : Except String (Nat × Nat)
  faceCheck : FaceCheck
deriving Repr

namespace ImageValidator

/-- Embeds `ImageValidator.validate`: the ordered checks of the source, returning
the `(is_valid, error_message)` pair.  An exception from the size probe
reaches the outer handler and becomes the `Validation error:` result. -/
def validate (enableFaceDetection : Bool) (f : ImageFile) : Bool × Option String :=
  if f.fileFound = false then (false, some ("File not found: " ++ f.path)) else
  if (Config.IMAGE_FORMATS.contains f.extension) = false then
    (false, some ("Invalid image format: " ++ f.extension ++
      ". Allowed formats: " ++ String.intercalate ", " Config.IMAGE_FORMATS)) else
  match f.sizeResult with
  | .error e => (false, some ("Validation error: " ++ e))
  | .ok file_size =>
  if Config.IMAGE_MAX_FILE_SIZE < file_size then
    (false, some ("Image file too large: " ++ format_file_size (file_size : ℚ) ++
      ". Maximum allowed: " ++ format_file_size (Config.IMAGE_MAX_FILE_SIZE : ℚ))) else
  match f.decodeResult with
  | .error e => (false, some ("Failed to load image: " ++ e))
  | .ok (width, height) =>
  if width < Config.IMAGE_MIN_SIZE ∨ height < Config.IMAGE_MIN_SIZE then
    (false, some ("Image too small: " ++ toString width ++ "x" ++ toString height ++
      ". Minimum size: " ++ toString Config.IMAGE_MIN_SIZE ++ "x" ++
      toString Config.IMAGE_MIN_SIZE)) else
  if Config.IMAGE_MAX_SIZE < width ∨ Config.IMAGE_MAX_SIZE < height then
    (false, some ("Image too large: " ++ toString width ++ "x" ++ toString height ++
      ". Maximum size: " ++ toString Config.IMAGE_MAX_SIZE ++ "x" ++
      toString Config.IMAGE_MAX_SIZE)) else
  if (width : ℚ) / (height : ℚ) < Config.IMAGE_MIN_ASPECT ∨
      Config.IMAGE_MAX_ASPECT < (width : ℚ) / (height : ℚ) then
    (false, some ("Invalid aspect ratio: " ++ twoDecimals ((width : ℚ) / (height : ℚ)) ++
      ". Must be between " ++ twoDecimals Config.IMAGE_MIN_ASPECT ++ " and " ++
      twoDecimals Config.IMAGE_MAX_ASPECT)) else
  if enableFaceDetection = true then
    (if f.faceCheck.imageResult.1 = false then f.faceCheck.imageResult else (true, none))
  else (true, none)

end ImageValidator

/-! ## Video validator (validators/video_validator.py) -/

/-- The metadata `cv2.VideoCapture` reports for an opened video. -/
structure VideoProps where
  width : Nat
  height : Nat
  fps : ℚ
  frameCount : Nat
deriving DecidableEq, Repr

/-- Outcome of the capture-loading try-block of `VideoValidator.validate`. -/
inductive VideoOpen where
  | raised (msg : String)
  | notOpened
  | opened (props : VideoProps)
deriving DecidableEq, Repr

/-- The filesystem and decoder facts `VideoValidator.validate` consults. -/
structure VideoFile where
  path : String
  fileFound : Bool
  extension : String
  sizeResult : Except String Nat
  openResult : VideoOpen
  faceCheck : FaceCheck
deriving Repr

namespace VideoValidator

/-- Embeds `VideoValidator.validate`: the ordered checks of the source.  When
OpenCV is unavailable (`cv2Available = false`), the source returns
`(True, None)` right after the format and file-size checks. -/
def validate (cv2Available enableFaceDetection : Bool) (f : VideoFile) :
    Bool × Option String :=
  if f.fileFound = false then (false, some ("File not found: " ++ f.path)) else
  if (Config.VIDEO_FORMATS.contains f.extension) = false then
    (false, some ("Invalid video format: " ++ f.extension ++
      ". Allowed formats: " ++ String.intercalate ", " Config.VIDEO_FORMATS)) else
  match f.sizeResult with
  | .error e => (false, some ("Validation error: " ++ e))
  | .ok file_size =>
  if Config.VIDEO_MAX_FILE_SIZE < file_size then
    (false, some ("Video file too large: " ++ format_file_size (file_size : ℚ) ++
      ". Maximum allowed: " ++ format_file_size (Config.VIDEO_MAX_FILE_SIZE : ℚ))) else
  if cv2Available = false then (true, none) else
  match f.openResult with
  | .raised e => (false, some ("Failed to load video: " ++ e))
  | .notOpened => (false, some "Failed to open video file")
  | .opened p =>
  if p.fps ≤ 0 then (false, some "Could not determine video FPS") else
  if p.width < Config.VIDEO_MIN_SIZE ∨ p.height < Config.VIDEO_MIN_SIZE then
    (false, some ("Video resolution too small: " ++ toString p.width ++ "x" ++
      toString p.height ++ ". Minimum: " ++ toString Config.VIDEO_MIN_SIZE ++ "x" ++
      toString Config.VIDEO_MIN_SIZE)) else
  if Config.VIDEO_MAX_SIZE < p.width ∨ Config.VIDEO_MAX_SIZE < p.height then
    (false, some ("Video resolution too large: " ++ toString p.width ++ "x" ++
      toString p.height ++ ". Maximum: " ++ toString Config.VIDEO_MAX_SIZE ++ "x" ++
      toString Config.VIDEO_MAX_SIZE)) else
  if (p.width : ℚ) / (p.height : ℚ) < Config.VIDEO_MIN_ASPECT ∨
      Config.VIDEO_MAX_ASPECT < (p.width : ℚ) / (p.height : ℚ) then
    (false, some ("Invalid aspect ratio: " ++
      twoDecimals ((p.width : ℚ) / (p.height : ℚ)) ++ ". Must be between " ++
      twoDecimals Config.VIDEO_MIN_ASPECT ++ " and " ++
      twoDecimals Config.VIDEO_MAX_ASPECT)) else
  if (p.frameCount : ℚ) / p.fps < Config.VIDEO_MIN_DURATION then
    (false, some ("Video too short: " ++ twoDecimals ((p.frameCount : ℚ) / p.fps) ++
      "s. Minimum duration: " ++ toString Config.VIDEO_MIN_DURATION ++ "s")) else
  if Config.VIDEO_MAX_DURATION < (p.frameCount : ℚ) / p.fps then
    (false, some ("Video too long: " ++ twoDecimals ((p.frameCount : ℚ) / p.fps) ++
      "s. Maximum duration: " ++ toString Config.VIDEO_MAX_DURATION ++ "s")) else
  if enableFaceDetection = true then
    (if f.faceCheck.videoResult.1 = false then f.faceCheck.videoResult else (true, none))
  else (true, none)

/-- Embeds `VideoValidator.estimate_processing_cost`: the duration field of
`get_video_info`, when present, priced through `Config.estimate_cost`;
`none` when the duration could not be determined. -/
def estimate_processing_cost (durationInfo : Option ℚ) (mode : Option String) :
    Option ℚ :=
  match durationInfo with
  | some d => some (Config.estimate_cost d mode)
  | none => none

end VideoValidator

/-! ## Uploader, direct-bucket variant (uploaders/oss_uploader.py) -/

/-- The kinds of exception the uploader code can raise: `ImportError`
when `oss2` is missing, `ValueError` for missing credentials,
`UploadError` from the upload methods, and an arbitrary exception
re-raised unchanged by the `oss2.Auth`/`Bucket` handler. -/
inductive UploadExc where
  | importErr (msg : String)
  | valueErr (msg : String)
  | uploadErr (msg : String)
  | otherExc (msg : String)
deriving DecidableEq, Repr

/-- Python truthiness test `not x` for an `os.getenv` result: `None` and
the empty string are both falsy. -/
def falsyEnv : Option String → Bool
  | none => true
  | some s => s = ""

namespace OSSUploader

/-- Embeds `OSSUploader._init_oss`: raises `ImportError` when the `oss2` library
is unavailable, `ValueError` when either credential is unset or empty,
and re-raises unchanged whatever `oss2.Auth`/`oss2.Bucket` raise. -/
def init_oss (ossAvailable : Bool) (keyId keySecret : Option String)
    (authResult : Except String Unit) : Except UploadExc Unit :=
  if ossAvailable = false then
    .error (.importErr
      "oss2 library is required for OSS upload. Install with: pip install oss2")
  else if falsyEnv keyId ∨ falsyEnv keySecret then
    .error (.valueErr
      "OSS credentials (OSS_ACCESS_KEY_ID, OSS_ACCESS_KEY_SECRET) must be set")
  else match authResult with
    | .error e => .error (.otherExc e)
    | .ok _ => .ok ()

/-- Embeds `OSSUploader._upload_to_oss`: any exception from the put (or the
surrounding try-block) becomes `UploadError("OSS upload failed: ...")`;
on success the deterministic bucket URL is returned. -/
def upload_to_oss (bucket endpoint remote_name : String)
    (putResult : Except String Unit) : Except UploadExc String :=
  match putResult with
  | .error e => .error (.uploadErr ("OSS upload failed: " ++ e))
  | .ok _ => .ok ("https://" ++ bucket ++ "." ++ endpoint ++ "/" ++ remote_name)

/-- Constructing the uploader with `USE_OSS` set and then calling
`upload_file`: `__init__` runs `_init_oss` first, so a construction
failure means no upload is attempted; otherwise `upload_file` checks the
file exists and delegates to `_upload_to_oss`. -/
def uploadViaOSS (ossAvailable : Bool) (keyId keySecret : Option String)
    (authResult : Except String Unit) (fileFound : Bool) (local_path : String)
    (bucket endpoint remote_name : String) (putResult : Except String Unit) :
    Except UploadExc String :=
  match init_oss ossAvailable keyId keySecret authResult with
  | .error e => .error e
  | .ok _ =>
    if fileFound = false then .error (.uploadErr ("File not found: " ++ local_path))
    else upload_to_oss bucket endpoint remote_name putResult

end OSSUploader

/-! ## Orchestrator (orchestrator.py) -/

/-- The collaborator outcomes one `VideoFaceSwapper.process` call
observes: validator pairs, upload and task-creation results (the error
side carries the exception message), the successive `query_task`
snapshots the poll loop sees, and the `(success, message)` pair of
`download_result`. -/
structure OrchEnv where
  imageValidation : Bool × Option String
  videoValidation : Bool × Option String
  imageUpload : Except String String
  videoUpload : Except String String
  createResult : Except String String
  pollSnapshots : List TaskInfo
  downloadOutcome : Bool × String
deriving Repr

/-- The fields of the orchestrator result dictionary that survive to the
caller on success. -/
structure ProcOutcome where
  success : Bool
  task_id : Option String
  output_path : Option String
  video_duration : Option ℚ
  cost : Option ℚ
deriving DecidableEq, Repr

namespace VideoFaceSwapper

/-- Embeds `VideoFaceSwapper.process`: the staged pipeline of the source.  Each
raised `ProcessingError` is embedded as `.error msg`; on an error path
the local result dictionary (which already holds the task id) is
discarded, exactly as in the source, where only the exception reaches
the caller.  The duplicated `Download failed:` prefix reproduces the
source: the inner `ProcessingError` of step 5 is caught by the same
step through `except Exception` and wrapped a second time.  A `TaskInfo` whose
`usage_video_duration` is `some 0` also covers a present `usage` block
without a `video_duration` key (`usage.get("video_duration", 0)`). -/
def process (env : OrchEnv) (skipValidation : Bool) (mode : String)
    (interval : ℚ) (output_path : String) : Except String ProcOutcome :=
  if skipValidation = false ∧ env.imageValidation.1 = false then
    .error ("Image validation failed: " ++ env.imageValidation.2.getD "None")
  else if skipValidation = false ∧ env.videoValidation.1 = false then
    .error ("Video validation failed: " ++ env.videoValidation.2.getD "None")
  else match env.imageUpload with
  | .error e => .error ("Upload failed: " ++ e)
  | .ok _image_url =>
  match env.videoUpload with
  | .error e => .error ("Upload failed: " ++ e)
  | .ok _video_url =>
  match env.createResult with
  | .error e => .error ("Task creation failed: " ++ e)
  | .ok task_id =>
  match (waitRun interval env.pollSnapshots).2 with
  | .error e => .error ("Task processing failed: " ++ e)
  | .ok info =>
  match info.results_video_url with
  | none => .error "Result video URL not found"
  | some _result_url =>
    if env.downloadOutcome.1 = false then
      .error ("Download failed: Download failed: " ++ env.downloadOutcome.2)
    else
      .ok { success := true, task_id := some task_id,
            output_path := some output_path,
            video_duration := info.usage_video_duration,
            cost := info.usage_video_duration.map
              (fun d => Config.estimate_cost d (some mode)) }

/-- One batch entry handed to `process_batch`: the two paths of the task
dictionary and the outcome `self.process` would produce for it. -/
structure BatchItem where
  image_path : Option String
  video_path : Option String
  outcome : Except String Unit
deriving Repr

/-- The fields of one per-item entry of the batch report. -/
structure BatchEntry where
  task_number : Nat
  success : Bool
  error : Option String
deriving DecidableEq, Repr

/-- The aggregate dictionary `process_batch` returns. -/
structure BatchResult where
  total : Nat
  successful : Nat
  failed : Nat
  tasks : List BatchEntry
deriving DecidableEq, Repr

/-- The loop body of `process_batch` over the remaining items, with `i`
the 1-based number of the next item.  Missing or falsy paths count as a
failure and `continue` (they never trigger the `continue_on_error`
break); an exception from `process` counts as a failure and, when
`continue_on_error` is false, breaks the loop. -/
def processBatchGo (continueOnErr : Bool) :
    List BatchItem → Nat → Nat × Nat × List BatchEntry
  | [], _ => (0, 0, [])
  | t :: ts, i =>
    if falsyEnv t.image_path ∨ falsyEnv t.video_path then
      let rest := processBatchGo continueOnErr ts (i + 1)
      (rest.1, rest.2.1 + 1,
        ⟨i, false, some "Missing image_path or video_path"⟩ :: rest.2.2)
    else match t.outcome with
    | .ok _ =>
      let rest := processBatchGo continueOnErr ts (i + 1)
      (rest.1 + 1, rest.2.1, ⟨i, true, none⟩ :: rest.2.2)
    | .error e =>
      if continueOnErr then
        let rest := processBatchGo continueOnErr ts (i + 1)
        (rest.1, rest.2.1 + 1, ⟨i, false, some e⟩ :: rest.2.2)
      else (0, 1, [⟨i, false, some e⟩])

/-- Embeds `VideoFaceSwapper.process_batch`. -/
def process_batch (items : List BatchItem) (continueOnErr : Bool) : BatchResult :=
  let g := processBatchGo continueOnErr items 1
  { total := items.length, successful := g.1, failed := g.2.1, tasks := g.2.2 }

end VideoFaceSwapper

/-- Holds when `small` is an initial segment of `big`. -/
def leadsChars : List Char → List Char → Bool
  | [], _ => true
  | _ :: _, [] => false
  | a :: as, b :: bs => a = b && leadsChars as bs

/-- Holds when `needle` occurs contiguously in `hay`. -/
def subOccurs (needle : List Char) : List Char → Bool
  | [] => leadsChars needle []
  | b :: bs => leadsChars needle (b :: bs) || subOccurs needle bs

/-- Holds when `needle` occurs as a substring of `hay`. -/
def mentions (hay needle : String) : Bool :=
  subOccurs needle.data hay.data

/-! ## Concrete instances used to exercise the model -/

/-- A snapshot whose status lies outside the `TaskStatus` enum. -/
def pausedInfo : TaskInfo :=
  { task_status := some "PAUSED", code := none, message := none,
    results_video_url := none, usage_video_duration := none }

/-- A terminal `SUCCEEDED` snapshot. -/
def succeededInfo : TaskInfo :=
  { task_status := some "SUCCEEDED", code := none, message := none,
    results_video_url := some "https://r/out.mp4", usage_video_duration := some 10 }

/-- A terminal `FAILED` snapshot carrying the error the remote job
reported. -/
def failedSnapshot : TaskInfo :=
  { task_status := some "FAILED", code := some "E_FACE_NOT_FOUND",
    message := some "No face detected", results_video_url := none,
    usage_video_duration := none }

/-- An orchestrator run in which every stage up to task creation works
and the job then fails remotely. -/
def envFailedJob : OrchEnv :=
  { imageValidation := (true, none), videoValidation := (true, none),
    imageUpload := .ok "https://b/i.jpg", videoUpload := .ok "https://b/v.mp4",
    createResult := .ok "task-123", pollSnapshots := [failedSnapshot],
    downloadOutcome := (true, "ok") }

/-- An image file whose metadata probes all succeed; the dimensions are
supplied per use. -/
def plainImage (w h : Nat) : ImageFile :=
  { path := "person.jpg", fileFound := true, extension := "jpg",
    sizeResult := .ok (2 * 1024 * 1024), decodeResult := .ok (w, h),
    faceCheck := .pass }

/-- A video file reachable only through the basic file checks. -/
def plainVideo : VideoFile :=
  { path := "clip.mp4", fileFound := true, extension := "mp4",
    sizeResult := .ok (50 * 1024 * 1024), openResult := .notOpened,
    faceCheck := .pass }

/-- Discriminator: did an upload-flow run end in an `UploadError`? -/
def isUploadErrorResult : Except UploadExc String → Bool
  | .error (.uploadErr _) => true
  | _ => false

/-- A three-item batch: one processed task that succeeds, one whose
processing raises, and one with a missing image path. -/
def batchSample : List VideoFaceSwapper.BatchItem :=
  [{ image_path := some "a.jpg", video_path := some "a.mp4",
     outcome := Except.ok () },
   { image_path := some "b.jpg", video_path := some "b.mp4",
     outcome := Except.error "Task processing failed" },
   { image_path := none, video_path := some "c.mp4",
     outcome := Except.ok () }]

/-! ## Shared helper lemmas -/

theorem append_ne_empty (a b : String) (ha : a ≠ "") : a ++ b ≠ "" := by
  cases a with
  | mk da =>
    cases b with
    | mk db =>
      intro h
      apply ha
      have hd : da ++ db = [] := congrArg String.data h
      have h1 : da = [] := (List.append_eq_nil.mp hd).1
      rw [h1]

/-! ## Claim theorems -/

/-- Claim C1 (amended): in `wait_for_task`, each of the four terminal enum
statuses ends the loop on that very iteration — `SUCCEEDED` returns the
queried snapshot unchanged, `FAILED` raises an `APIError` carrying the
reported code and message, `CANCELED` and `UNKNOWN` raise their generic
messages — with no sleep and no further query; but a status outside the
enum is treated like `PENDING`/`RUNNING`: the loop sleeps for the poll
interval and queries again. -/
theorem wait_terminal_statuses (interval : ℚ) (info : TaskInfo)
    (rest : List TaskInfo) :
    (info.status = "SUCCEEDED" →
      waitRun interval (info :: rest) = ([], Except.ok info)) ∧
    (info.status = "FAILED" →
      waitRun interval (info :: rest) = ([], Except.error
        ("Task failed [" ++ info.code.getD "UNKNOWN" ++ "]: " ++
          info.message.getD "Task failed"))) ∧
    (info.status = "CANCELED" →
      waitRun interval (info :: rest) = ([], Except.error "Task was canceled")) ∧
    (info.status = "UNKNOWN" →
      waitRun interval (info :: rest) =
        ([], Except.error "Task not found or status unknown")) ∧
    (info.status ≠ "SUCCEEDED" → info.status ≠ "FAILED" →
      info.status ≠ "CANCELED" → info.status ≠ "UNKNOWN" →
      waitRun interval (info :: rest) =
        (interval :: (waitRun interval rest).1, (waitRun interval rest).2)) := by
  refine ⟨?_, ?_, ?_, ?_, ?_⟩
  · intro h; simp [waitRun, waitStep, h]
  · intro h; simp [waitRun, waitStep, h]
  · intro h; simp [waitRun, waitStep, h]
  · intro h; simp [waitRun, waitStep, h]
  · intro h1 h2 h3 h4; simp [waitRun, waitStep, h1, h2, h3, h4]

/-- Witness for C1: a `SUCCEEDED` first poll returns the snapshot
unchanged with no sleep. -/
theorem wait_terminal_statuses_witness :
    waitRun 15 [succeededInfo] = ([], Except.ok succeededInfo) :=
  (wait_terminal_statuses 15 succeededInfo []).1 rfl

/-- Counterexample to claim C1 as stated: the status `PAUSED` is outside
the enum, yet the loop does not fail on that iteration — it sleeps the
poll interval and queries again, here until the deadline. -/
theorem wait_unknown_status_keeps_polling :
    waitStep pausedInfo = PollAction.continuePolling ∧
    waitRun 15 [pausedInfo, pausedInfo] = ([15, 15], Except.error "Task timeout") := by
  exact ⟨rfl, rfl⟩

/-- Claim C2 (amended): when the status query for the created job reports
`FAILED` with a code and message, `VideoFaceSwapper.process` raises a
`ProcessingError` embedding exactly that code and message; the job id
assigned at creation is only stored in the local result dictionary and
logged, and is not part of the outcome delivered to the caller. -/
theorem process_failed_embeds_code_message (env : OrchEnv)
    (mode out : String) (interval : ℚ) (tid c m iurl vurl : String)
    (info : TaskInfo) (rest : List TaskInfo)
    (h1 : env.imageValidation.1 = true) (h2 : env.videoValidation.1 = true)
    (h3 : env.imageUpload = Except.ok iurl)
    (h4 : env.videoUpload = Except.ok vurl)
    (h5 : env.createResult = Except.ok tid)
    (h6 : env.pollSnapshots = info :: rest)
    (h7 : info.task_status = some "FAILED") (h8 : info.code = some c)
    (h9 : info.message = some m) :
    VideoFaceSwapper.process env false mode interval out =
      Except.error ("Task processing failed: " ++
        ("Task failed [" ++ c ++ "]: " ++ m)) := by
  simp [VideoFaceSwapper.process, waitRun, waitStep, TaskInfo.status,
    h1, h2, h3, h4, h5, h6, h7, h8, h9]

/-- Witness for C2: the `FAILED` scenario evaluated on a concrete run. -/
theorem process_failed_embeds_code_message_witness :
    VideoFaceSwapper.process envFailedJob false "wan-std" 15 "out.mp4" =
      Except.error ("Task processing failed: " ++
        ("Task failed [" ++ "E_FACE_NOT_FOUND" ++ "]: " ++ "No face detected")) :=
  process_failed_embeds_code_message envFailedJob "wan-std" "out.mp4" 15 "task-123"
    "E_FACE_NOT_FOUND" "No face detected" "https://b/i.jpg" "https://b/v.mp4"
    failedSnapshot [] rfl rfl rfl rfl rfl rfl rfl rfl rfl

/-- Counterexample to claim C2 as stated: in the `FAILED` scenario the
only thing delivered to the top-level caller is the `ProcessingError`;
it embeds the reported code and message but does not report the job id
`task-123` assigned at creation. -/
theorem process_failed_outcome_lacks_job_id :
    VideoFaceSwapper.process envFailedJob false "wan-std" 15 "out.mp4" =
      Except.error
        "Task processing failed: Task failed [E_FACE_NOT_FOUND]: No face detected" ∧
    mentions
      "Task processing failed: Task failed [E_FACE_NOT_FOUND]: No face detected"
      "E_FACE_NOT_FOUND" = true ∧
    mentions
      "Task processing failed: Task failed [E_FACE_NOT_FOUND]: No face detected"
      "No face detected" = true ∧
    mentions
      "Task processing failed: Task failed [E_FACE_NOT_FOUND]: No face detected"
      "task-123" = false := by
  exact ⟨rfl, rfl, rfl, rfl⟩

theorem get_mode_price_cases (mode : String) :
    Config.get_mode_price mode = if mode = "wan-pro" then 9 / 10 else 6 / 10 := by
  unfold Config.get_mode_price Config.PRICING
  by_cases h1 : mode = "wan-std"
  · subst h1; simp
  · by_cases h2 : mode = "wan-pro" <;> simp [h1, h2]

theorem get_mode_price_nonneg (mode : String) : 0 ≤ Config.get_mode_price mode := by
  rw [get_mode_price_cases]
  split <;> norm_num

/-- Claim C3 (amended): the cost estimate equals duration times 0.9 when
the effective mode is `wan-pro` and duration times 0.6 for the standard
mode and for every unrecognized mode (the pricing lookup falls back to
the standard rate); it is monotone nondecreasing in the duration for a
fixed mode; and the validator-level estimate returns `none` when the
video duration could not be determined. -/
theorem estimate_cost_spec (d : ℚ) (m : Option String) :
    (m.getD Config.DEFAULT_MODE = "wan-pro" →
      Config.estimate_cost d m = d * (9 / 10)) ∧
    (m.getD Config.DEFAULT_MODE ≠ "wan-pro" →
      Config.estimate_cost d m = d * (6 / 10)) ∧
    (∀ d2 : ℚ, d ≤ d2 →
      Config.estimate_cost d m ≤ Config.estimate_cost d2 m) ∧
    VideoValidator.estimate_processing_cost none m = none ∧
    VideoValidator.estimate_processing_cost (some d) m =
      some (Config.estimate_cost d m) := by
  refine ⟨?_, ?_, ?_, rfl, rfl⟩
  · intro h
    unfold Config.estimate_cost
    rw [get_mode_price_cases, if_pos h]
  · intro h
    unfold Config.estimate_cost
    rw [get_mode_price_cases, if_neg h]
  · intro d2 hle
    unfold Config.estimate_cost
    exact mul_le_mul_of_nonneg_right hle (get_mode_price_nonneg _)

/-- Witness for C3: ten seconds priced in each recognized mode. -/
theorem estimate_cost_spec_witness :
    Config.estimate_cost 10 (some "wan-std") = 10 * (6 / 10) ∧
    Config.estimate_cost 10 (some "wan-pro") = 10 * (9 / 10) :=
  ⟨(estimate_cost_spec 10 (some "wan-std")).2.1 (by decide),
   (estimate_cost_spec 10 (some "wan-pro")).1 (by decide)⟩

/-- Counterexample to claim C3 as stated: for the unrecognized mode
`wan-x` the estimate is 0.6 per second (the standard-rate fallback of
the pricing lookup), not the 0.9 the claim assigns to every non-standard
mode. -/
theorem estimate_cost_unknown_mode_fallback :
    Config.estimate_cost 1 (some "wan-x") = 6 / 10 ∧
    Config.estimate_cost 1 (some "wan-x") ≠ 1 * (9 / 10) := by
  constructor
  · simp [Config.estimate_cost, Config.get_mode_price, Config.PRICING,
      Config.DEFAULT_MODE]
  · simp [Config.estimate_cost, Config.get_mode_price, Config.PRICING,
      Config.DEFAULT_MODE]
    norm_num

theorem retryGo_all_fail {E A : Type} (e : Nat → E) (backoff : ℚ) :
    ∀ fuel, 0 < fuel → ∀ attempt,
      retryGo (A := A) (fun i => Except.error (e i)) backoff attempt fuel =
        ((List.range' attempt (fuel - 1)).map (fun i => backoff ^ i),
          Except.error (some (e (attempt + (fuel - 1))))) := by
  intro fuel
  induction fuel with
  | zero => intro h; omega
  | succ n ih =>
    intro _ attempt
    cases n with
    | zero => simp [retryGo]
    | succ m =>
      have ihm := ih (Nat.succ_pos m) (attempt + 1)
      simp only [retryGo, ihm]
      simp [List.range'_succ]
      congr 1
      omega

theorem retryGo_congr {E A : Type} (f g : Nat → Except E A) (backoff : ℚ) :
    ∀ fuel attempt, (∀ i, attempt ≤ i → i < attempt + fuel → f i = g i) →
      retryGo f backoff attempt fuel = retryGo g backoff attempt fuel := by
  intro fuel
  induction fuel with
  | zero => intro attempt h; simp [retryGo]
  | succ n ih =>
    intro attempt h
    cases n with
    | zero =>
      have h0 : f attempt = g attempt := h attempt le_rfl (by omega)
      simp [retryGo, h0]
    | succ m =>
      have h0 : f attempt = g attempt := h attempt le_rfl (by omega)
      have ihm := ih (attempt + 1) (fun i hi1 hi2 => h i (by omega) (by omega))
      simp only [retryGo, h0, ihm]

/-- Claim C4: `retry_with_backoff` consults the wrapped operation at most
`maxRetries` times (the run is unchanged by altering outcomes from
attempt `maxRetries` on); when every attempt fails it sleeps
`backoff ^ attemptIndex` after each failing attempt except the last —
`maxRetries - 1` sleeps in all — and finally re-raises the exception of
the last attempt unchanged, with no wrapping. -/
theorem retry_with_backoff_spec {E A : Type} (f g : Nat → Except E A)
    (e : Nat → E) (maxRetries : Nat) (backoff : ℚ) (hpos : 0 < maxRetries) :
    retry_with_backoff (A := A) (fun i => Except.error (e i)) maxRetries backoff =
      ((List.range (maxRetries - 1)).map (fun i => backoff ^ i),
        Except.error (some (e (maxRetries - 1)))) ∧
    ((∀ i, i < maxRetries → f i = g i) →
      retry_with_backoff f maxRetries backoff =
        retry_with_backoff g maxRetries backoff) := by
  constructor
  · have h := retryGo_all_fail (A := A) e backoff maxRetries hpos 0
    simpa [retry_with_backoff, List.range_eq_range'] using h
  · intro h
    exact retryGo_congr f g backoff maxRetries 0 (fun i h1 h2 => h i (by omega))

/-- Witness for C4: with `maxRetries = 3` and `backoff = 2`, three
consecutive failures produce exactly two sleeps, of 1 and 2 base units,
and the third exception is re-raised as-is. -/
theorem retry_with_backoff_spec_witness :
    retry_with_backoff (E := Nat) (A := Nat) (fun i => Except.error i) 3 2 =
      ([1, 2], Except.error (some 2)) := by
  have h := (retry_with_backoff_spec (E := Nat) (A := Nat)
    (fun i => Except.error i) (fun i => Except.error i) (fun i => i) 3 2
    (by decide)).1
  simpa [List.range_succ] using h

/-- Claim C5: for an image past the existence, format, size, and decode
checks, a width or height outside [200, 4096] makes `validate` fail with
the dimension-violation reason, while the boundary squares 200 by 200
and 4096 by 4096 are accepted. -/
theorem image_dimension_bounds (ef : Bool) (f : ImageFile) (w h s : Nat)
    (hf : f.fileFound = true)
    (hext : Config.IMAGE_FORMATS.contains f.extension = true)
    (hsz : f.sizeResult = Except.ok s) (hszle : s ≤ Config.IMAGE_MAX_FILE_SIZE)
    (hdec : f.decodeResult = Except.ok (w, h))
    (hface : f.faceCheck = FaceCheck.pass) :
    ((w < 200 ∨ h < 200) →
      ImageValidator.validate ef f = (false, some ("Image too small: " ++
        toString w ++ "x" ++ toString h ++ ". Minimum size: " ++
        toString Config.IMAGE_MIN_SIZE ++ "x" ++
        toString Config.IMAGE_MIN_SIZE))) ∧
    (200 ≤ w → 200 ≤ h → (4096 < w ∨ 4096 < h) →
      ImageValidator.validate ef f = (false, some ("Image too large: " ++
        toString w ++ "x" ++ toString h ++ ". Maximum size: " ++
        toString Config.IMAGE_MAX_SIZE ++ "x" ++
        toString Config.IMAGE_MAX_SIZE))) ∧
    (w = 200 → h = 200 → ImageValidator.validate ef f = (true, none)) ∧
    (w = 4096 → h = 4096 → ImageValidator.validate ef f = (true, none)) := by
  have hn : ¬ (Config.IMAGE_MAX_FILE_SIZE < s) := Nat.not_lt.mpr hszle
  have hmem : f.extension ∈ Config.IMAGE_FORMATS := by simpa using hext
  refine ⟨?_, ?_, ?_, ?_⟩
  · intro hd
    simp [ImageValidator.validate, hf, hmem, hsz, hn, hdec,
      Config.IMAGE_MIN_SIZE, hd]
  · intro hw hh hd
    have hsmall : ¬ (w < 200 ∨ h < 200) := by omega
    simp [ImageValidator.validate, hf, hmem, hsz, hn, hdec,
      Config.IMAGE_MIN_SIZE, Config.IMAGE_MAX_SIZE, hsmall, hd]
  · intro hw hh
    subst hw; subst hh
    norm_num [ImageValidator.validate, hf, hmem, hsz, hn, hdec, hface,
      FaceCheck.imageResult, Config.IMAGE_MIN_SIZE, Config.IMAGE_MAX_SIZE,
      Config.IMAGE_MIN_ASPECT, Config.IMAGE_MAX_ASPECT]
  · intro hw hh
    subst hw; subst hh
    norm_num [ImageValidator.validate, hf, hmem, hsz, hn, hdec, hface,
      FaceCheck.imageResult, Config.IMAGE_MIN_SIZE, Config.IMAGE_MAX_SIZE,
      Config.IMAGE_MIN_ASPECT, Config.IMAGE_MAX_ASPECT]

/-- Witness for C5: concrete boundary images 200 by 200 and 4096 by 4096
pass, 199 by 199 and 4097 by 4097 fail with the dimension reasons. -/
theorem image_dimension_bounds_witness :
    ImageValidator.validate true (plainImage 200 200) = (true, none) ∧
    ImageValidator.validate true (plainImage 4096 4096) = (true, none) ∧
    ImageValidator.validate true (plainImage 199 199) =
      (false, some ("Image too small: " ++ toString 199 ++ "x" ++ toString 199 ++
        ". Minimum size: " ++ toString Config.IMAGE_MIN_SIZE ++ "x" ++
        toString Config.IMAGE_MIN_SIZE)) ∧
    ImageValidator.validate true (plainImage 4097 4097) =
      (false, some ("Image too large: " ++ toString 4097 ++ "x" ++ toString 4097 ++
        ". Maximum size: " ++ toString Config.IMAGE_MAX_SIZE ++ "x" ++
        toString Config.IMAGE_MAX_SIZE)) :=
  ⟨(image_dimension_bounds true (plainImage 200 200) 200 200 (2 * 1024 * 1024)
      rfl rfl rfl (by norm_num [Config.IMAGE_MAX_FILE_SIZE]) rfl rfl).2.2.1 rfl rfl,
   (image_dimension_bounds true (plainImage 4096 4096) 4096 4096 (2 * 1024 * 1024)
      rfl rfl rfl (by norm_num [Config.IMAGE_MAX_FILE_SIZE]) rfl rfl).2.2.2 rfl rfl,
   (image_dimension_bounds true (plainImage 199 199) 199 199 (2 * 1024 * 1024)
      rfl rfl rfl (by norm_num [Config.IMAGE_MAX_FILE_SIZE]) rfl rfl).1
      (by norm_num),
   (image_dimension_bounds true (plainImage 4097 4097) 4097 4097 (2 * 1024 * 1024)
      rfl rfl rfl (by norm_num [Config.IMAGE_MAX_FILE_SIZE]) rfl rfl).2.1
      (by norm_num) (by norm_num) (by norm_num)⟩

/-- Claim C6: for an image past all earlier checks, with face detection
disabled, `validate` accepts exactly when the aspect ratio lies in
[1/3, 3], boundaries included. -/
theorem image_aspect_bounds (f : ImageFile) (w h s : Nat)
    (hf : f.fileFound = true)
    (hext : Config.IMAGE_FORMATS.contains f.extension = true)
    (hsz : f.sizeResult = Except.ok s) (hszle : s ≤ Config.IMAGE_MAX_FILE_SIZE)
    (hdec : f.decodeResult = Except.ok (w, h))
    (hwlo : 200 ≤ w) (hwhi : w ≤ 4096) (hhlo : 200 ≤ h) (hhhi : h ≤ 4096) :
    ((ImageValidator.validate false f).1 = true ↔
      ((1 : ℚ) / 3 ≤ (w : ℚ) / (h : ℚ) ∧ (w : ℚ) / (h : ℚ) ≤ 3)) := by
  have hn : ¬ (Config.IMAGE_MAX_FILE_SIZE < s) := Nat.not_lt.mpr hszle
  have hsmall : ¬ (w < Config.IMAGE_MIN_SIZE ∨ h < Config.IMAGE_MIN_SIZE) := by
    simp only [Config.IMAGE_MIN_SIZE]
    omega
  have hlarge : ¬ (Config.IMAGE_MAX_SIZE < w ∨ Config.IMAGE_MAX_SIZE < h) := by
    simp only [Config.IMAGE_MAX_SIZE]
    omega
  have hmem : f.extension ∈ Config.IMAGE_FORMATS := by simpa using hext
  have hval : ImageValidator.validate false f =
      (if (w : ℚ) / (h : ℚ) < Config.IMAGE_MIN_ASPECT ∨
          Config.IMAGE_MAX_ASPECT < (w : ℚ) / (h : ℚ) then
        (false, some ("Invalid aspect ratio: " ++
          twoDecimals ((w : ℚ) / (h : ℚ)) ++ ". Must be between " ++
          twoDecimals Config.IMAGE_MIN_ASPECT ++ " and " ++
          twoDecimals Config.IMAGE_MAX_ASPECT))
      else (true, none)) := by
    simp [ImageValidator.validate, hf, hmem, hsz, hn, hdec, hsmall, hlarge]
  rw [hval]
  by_cases hr : ((w : ℚ) / (h : ℚ) < Config.IMAGE_MIN_ASPECT ∨
      Config.IMAGE_MAX_ASPECT < (w : ℚ) / (h : ℚ))
  · rw [if_pos hr]
    simp only [Config.IMAGE_MIN_ASPECT, Config.IMAGE_MAX_ASPECT] at hr
    constructor
    · intro hfalse
      exact absurd hfalse (by simp)
    · rintro ⟨ha, hb⟩
      exfalso
      rcases hr with hr | hr <;> linarith
  · rw [if_neg hr]
    push_neg at hr
    simp only [Config.IMAGE_MIN_ASPECT, Config.IMAGE_MAX_ASPECT] at hr
    constructor
    · intro _
      refine ⟨hr.1, ?_⟩
      have := hr.2
      linarith
    · intro _
      rfl

/-- Witness for C6: the boundary-ratio images 200 by 600 (ratio 1/3) and
600 by 200 (ratio 3) are both accepted. -/
theorem image_aspect_bounds_witness :
    (ImageValidator.validate false (plainImage 200 600)).1 = true ∧
    (ImageValidator.validate false (plainImage 600 200)).1 = true :=
  ⟨(image_aspect_bounds (plainImage 200 600) 200 600 (2 * 1024 * 1024) rfl rfl rfl
      (by norm_num [Config.IMAGE_MAX_FILE_SIZE]) rfl (by norm_num) (by norm_num)
      (by norm_num) (by norm_num)).mpr ⟨by norm_num, by norm_num⟩,
   (image_aspect_bounds (plainImage 600 200) 600 200 (2 * 1024 * 1024) rfl rfl rfl
      (by norm_num [Config.IMAGE_MAX_FILE_SIZE]) rfl (by norm_num) (by norm_num)
      (by norm_num) (by norm_num)).mpr ⟨by norm_num, by norm_num⟩⟩

/-- Claim C7: with the decode capability (OpenCV) unavailable, video
validation degrades to the format and file-size checks: every existing
file with an allowed extension and a size within the limit passes,
whatever its decoder metadata or face-check outcome would have been. -/
theorem video_degraded_validation (ef : Bool) (f : VideoFile) (s : Nat)
    (hf : f.fileFound = true)
    (hext : Config.VIDEO_FORMATS.contains f.extension = true)
    (hsz : f.sizeResult = Except.ok s)
    (hszle : s ≤ Config.VIDEO_MAX_FILE_SIZE) :
    VideoValidator.validate false ef f = (true, none) := by
  have hn : ¬ (Config.VIDEO_MAX_FILE_SIZE < s) := Nat.not_lt.mpr hszle
  have hmem : f.extension ∈ Config.VIDEO_FORMATS := by simpa using hext
  simp [VideoValidator.validate, hf, hmem, hsz, hn]

/-- Witness for C7: a 50 MiB mp4 file whose capture cannot even be
opened still validates under the degraded contract. -/
theorem video_degraded_validation_witness :
    VideoValidator.validate false true plainVideo = (true, none) :=
  video_degraded_validation true plainVideo (50 * 1024 * 1024) rfl rfl rfl
    (by norm_num [Config.VIDEO_MAX_FILE_SIZE])

/-- The structural invariant claim C9 asserts of one validator result. -/
def resultInv (r : Bool × Option String) : Prop :=
  (r.1 = true ↔ r.2 = none) ∧ (r.1 = false → ∃ m, r.2 = some m ∧ m ≠ "")

theorem resultInv_ok : resultInv (true, none) := by
  constructor
  · simp
  · simp

theorem resultInv_fail (m : String) (hm : m ≠ "") : resultInv (false, some m) :=
  ⟨by simp, fun _ => ⟨m, rfl, hm⟩⟩

theorem resultInv_imageFace (fc : FaceCheck) : resultInv fc.imageResult := by
  cases fc with
  | pass => exact resultInv_ok
  | readFailed => exact resultInv_fail _ (by decide)
  | noFace => exact resultInv_fail _ (by decide)
  | multipleFaces n =>
    refine resultInv_fail _ ?_
    repeat' apply append_ne_empty
    decide

theorem resultInv_videoFace (fc : FaceCheck) : resultInv fc.videoResult := by
  cases fc with
  | pass => exact resultInv_ok
  | readFailed => exact resultInv_fail _ (by decide)
  | noFace => exact resultInv_fail _ (by decide)
  | multipleFaces n =>
    refine resultInv_fail _ ?_
    repeat' apply append_ne_empty
    decide

theorem resultInv_ite (c : Prop) [Decidable c] (a b : Bool × Option String)
    (ha : resultInv a) (hb : resultInv b) : resultInv (if c then a else b) := by
  by_cases h : c
  · rwa [if_pos h]
  · rwa [if_neg h]

theorem imageValidate_inv (ef : Bool) (f : ImageFile) :
    resultInv (ImageValidator.validate ef f) := by
  unfold ImageValidator.validate
  refine resultInv_ite _ _ _ (resultInv_fail _ (by
    repeat' apply append_ne_empty
    decide)) ?_
  refine resultInv_ite _ _ _ (resultInv_fail _ (by
    repeat' apply append_ne_empty
    decide)) ?_
  rcases f.sizeResult with e | s
  · exact resultInv_fail _ (by
      repeat' apply append_ne_empty
      decide)
  · refine resultInv_ite _ _ _ (resultInv_fail _ (by
      repeat' apply append_ne_empty
      decide)) ?_
    rcases f.decodeResult with e | wh
    · exact resultInv_fail _ (by
        repeat' apply append_ne_empty
        decide)
    · rcases wh with ⟨w, h⟩
      refine resultInv_ite _ _ _ (resultInv_fail _ (by
        repeat' apply append_ne_empty
        decide)) ?_
      refine resultInv_ite _ _ _ (resultInv_fail _ (by
        repeat' apply append_ne_empty
        decide)) ?_
      refine resultInv_ite _ _ _ (resultInv_fail _ (by
        repeat' apply append_ne_empty
        decide)) ?_
      refine resultInv_ite _ _ _ ?_ resultInv_ok
      refine resultInv_ite _ _ _ (resultInv_imageFace _) resultInv_ok

theorem videoValidate_inv (cv ef : Bool) (f : VideoFile) :
    resultInv (VideoValidator.validate cv ef f) := by
  unfold VideoValidator.validate
  refine resultInv_ite _ _ _ (resultInv_fail _ (by
    repeat' apply append_ne_empty
    decide)) ?_
  refine resultInv_ite _ _ _ (resultInv_fail _ (by
    repeat' apply append_ne_empty
    decide)) ?_
  rcases f.sizeResult with e | s
  · exact resultInv_fail _ (by
      repeat' apply append_ne_empty
      decide)
  · refine resultInv_ite _ _ _ (resultInv_fail _ (by
      repeat' apply append_ne_empty
      decide)) ?_
    refine resultInv_ite _ _ _ resultInv_ok ?_
    rcases f.openResult with e | _ | p
    · exact resultInv_fail _ (by
        repeat' apply append_ne_empty
        decide)
    · exact resultInv_fail _ (by decide)
    · refine resultInv_ite _ _ _ (resultInv_fail _ (by decide)) ?_
      refine resultInv_ite _ _ _ (resultInv_fail _ (by
        repeat' apply append_ne_empty
        decide)) ?_
      refine resultInv_ite _ _ _ (resultInv_fail _ (by
        repeat' apply append_ne_empty
        decide)) ?_
      refine resultInv_ite _ _ _ (resultInv_fail _ (by
        repeat' apply append_ne_empty
        decide)) ?_
      refine resultInv_ite _ _ _ (resultInv_fail _ (by
        repeat' apply append_ne_empty
        decide)) ?_
      refine resultInv_ite _ _ _ (resultInv_fail _ (by
        repeat' apply append_ne_empty
        decide)) ?_
      refine resultInv_ite _ _ _ ?_ resultInv_ok
      refine resultInv_ite _ _ _ (resultInv_videoFace _) resultInv_ok

/-- Claim C9: both validators are total functions into structured
`(ok, reason)` pairs — the embedding has no exception outcome because
the source converts every internal exception into a not-ok result — and
in every result the reason is `none` exactly when ok is true and a
non-empty description exactly when ok is false. -/
theorem validators_structured_results :
    (∀ (ef : Bool) (f : ImageFile),
      ((ImageValidator.validate ef f).1 = true ↔
        (ImageValidator.validate ef f).2 = none) ∧
      ((ImageValidator.validate ef f).1 = false →
        ∃ m, (ImageValidator.validate ef f).2 = some m ∧ m ≠ "")) ∧
    (∀ (cv ef : Bool) (g : VideoFile),
      ((VideoValidator.validate cv ef g).1 = true ↔
        (VideoValidator.validate cv ef g).2 = none) ∧
      ((VideoValidator.validate cv ef g).1 = false →
        ∃ m, (VideoValidator.validate cv ef g).2 = some m ∧ m ≠ "")) :=
  ⟨fun ef f => imageValidate_inv ef f, fun cv ef g => videoValidate_inv cv ef g⟩

/-- Witness for C9 on a concrete image: the verdict and the absence of a
reason coincide. -/
theorem validators_structured_results_witness :
    (ImageValidator.validate false (plainImage 300 300)).1 = true ↔
      (ImageValidator.validate false (plainImage 300 300)).2 = none :=
  (validators_structured_results.1 false (plainImage 300 300)).1

/-- Claim C8 (amended): under the direct-bucket variant, absent (or
empty) bucket credentials make uploader initialization fail with a
`ValueError` before any upload is attempted, and a failing put makes the
upload fail with an `UploadError` carrying the underlying cause. -/
theorem oss_upload_failures (keyId keySecret : Option String)
    (authResult : Except String Unit) (fileFound : Bool)
    (lp bucket endpoint rn e : String) (putResult : Except String Unit) :
    ((falsyEnv keyId = true ∨ falsyEnv keySecret = true) →
      OSSUploader.uploadViaOSS true keyId keySecret authResult fileFound lp
        bucket endpoint rn putResult =
        Except.error (UploadExc.valueErr
          "OSS credentials (OSS_ACCESS_KEY_ID, OSS_ACCESS_KEY_SECRET) must be set")) ∧
    (falsyEnv keyId = false → falsyEnv keySecret = false →
      authResult = Except.ok () → fileFound = true →
      putResult = Except.error e →
      OSSUploader.uploadViaOSS true keyId keySecret authResult fileFound lp
        bucket endpoint rn putResult =
        Except.error (UploadExc.uploadErr ("OSS upload failed: " ++ e))) := by
  constructor
  · intro hd
    simp [OSSUploader.uploadViaOSS, OSSUploader.init_oss, hd]
  · intro hk1 hk2 ha hff hput
    simp [OSSUploader.uploadViaOSS, OSSUploader.init_oss,
      OSSUploader.upload_to_oss, hk1, hk2, ha, hff, hput]

/-- Witness for C8: a failing put surfaces as an `UploadError` carrying
the cause. -/
theorem oss_upload_failures_witness :
    OSSUploader.uploadViaOSS true (some "id") (some "secret") (Except.ok ())
      true "a.mp4" "bkt" "oss-cn.example.com" "wan22/a.mp4"
      (Except.error "socket closed") =
      Except.error (UploadExc.uploadErr ("OSS upload failed: " ++ "socket closed")) :=
  (oss_upload_failures (some "id") (some "secret") (Except.ok ()) true "a.mp4"
    "bkt" "oss-cn.example.com" "wan22/a.mp4" "socket closed"
    (Except.error "socket closed")).2 rfl rfl rfl rfl rfl

/-- Counterexample to claim C8 as stated: with the bucket credentials
absent the flow fails with a `ValueError` raised at initialization, not
with an `UploadError`. -/
theorem oss_missing_credentials_not_upload_error :
    OSSUploader.uploadViaOSS true none (some "secret") (Except.ok ()) true
      "a.mp4" "bkt" "oss-cn.example.com" "wan22/a.mp4" (Except.ok ()) =
      Except.error (UploadExc.valueErr
        "OSS credentials (OSS_ACCESS_KEY_ID, OSS_ACCESS_KEY_SECRET) must be set") ∧
    isUploadErrorResult (OSSUploader.uploadViaOSS true none (some "secret")
      (Except.ok ()) true "a.mp4" "bkt" "oss-cn.example.com" "wan22/a.mp4"
      (Except.ok ())) = false :=
  ⟨rfl, rfl⟩

theorem processBatchGo_inv (c : Bool) :
    ∀ (items : List VideoFaceSwapper.BatchItem) (i : Nat),
      (VideoFaceSwapper.processBatchGo c items i).1 +
        (VideoFaceSwapper.processBatchGo c items i).2.1 =
        (VideoFaceSwapper.processBatchGo c items i).2.2.length ∧
      (VideoFaceSwapper.processBatchGo c items i).2.2.length ≤ items.length ∧
      (VideoFaceSwapper.processBatchGo c items i).2.2.map
          VideoFaceSwapper.BatchEntry.task_number =
        List.range' i (VideoFaceSwapper.processBatchGo c items i).2.2.length ∧
      (c = true →
        (VideoFaceSwapper.processBatchGo c items i).2.2.length = items.length) := by
  intro items
  induction items with
  | nil => intro i; simp [VideoFaceSwapper.processBatchGo]
  | cons t ts ih =>
    intro i
    obtain ⟨ih1, ih2, ih3, ih4⟩ := ih (i + 1)
    by_cases hm : (falsyEnv t.image_path = true ∨ falsyEnv t.video_path = true)
    · simp only [VideoFaceSwapper.processBatchGo, if_pos hm]
      refine ⟨by simp only [List.length_cons]; omega,
        by simp only [List.length_cons]; omega, ?_, ?_⟩
      · simp only [List.map_cons, List.length_cons, List.range'_succ, ih3]
      · intro hc
        simp only [List.length_cons, ih4 hc]
    · simp only [VideoFaceSwapper.processBatchGo, if_neg hm]
      rcases t.outcome with e | u
      · dsimp only
        by_cases hc : c = true
        · rw [if_pos hc]
          refine ⟨by simp only [List.length_cons]; omega,
            by simp only [List.length_cons]; omega, ?_, ?_⟩
          · simp only [List.map_cons, List.length_cons, List.range'_succ, ih3]
          · intro hc2
            simp only [List.length_cons, ih4 hc2]
        · rw [if_neg hc]
          refine ⟨by simp, by simp, by simp, fun hc2 => absurd hc2 hc⟩
      · dsimp only
        refine ⟨by simp only [List.length_cons]; omega,
          by simp only [List.length_cons]; omega, ?_, ?_⟩
        · simp only [List.map_cons, List.length_cons, List.range'_succ, ih3]
        · intro hc
          simp only [List.length_cons, ih4 hc]

/-- Claim C10: the batch report keeps the counter invariant — successful
plus failed equals the number of per-item entries, is bounded by the
total, the per-item entries correspond in order to the first entries of
the input (their task numbers are 1, 2, ...), and with
`continue_on_error` true every input task yields exactly one entry so
that successful plus failed equals the total. -/
theorem process_batch_invariants (items : List VideoFaceSwapper.BatchItem)
    (c : Bool) :
    (VideoFaceSwapper.process_batch items c).successful +
      (VideoFaceSwapper.process_batch items c).failed =
      (VideoFaceSwapper.process_batch items c).tasks.length ∧
    (VideoFaceSwapper.process_batch items c).successful +
      (VideoFaceSwapper.process_batch items c).failed ≤
      (VideoFaceSwapper.process_batch items c).total ∧
    (VideoFaceSwapper.process_batch items c).tasks.map
        VideoFaceSwapper.BatchEntry.task_number =
      List.range' 1 (VideoFaceSwapper.process_batch items c).tasks.length ∧
    (c = true →
      (VideoFaceSwapper.process_batch items c).successful +
        (VideoFaceSwapper.process_batch items c).failed =
        (VideoFaceSwapper.process_batch items c).total) := by
  obtain ⟨h1, h2, h3, h4⟩ := processBatchGo_inv c items 1
  simp only [VideoFaceSwapper.process_batch]
  refine ⟨h1, by omega, h3, fun hc => by rw [h1, h4 hc]⟩

/-- Witness for C10: with `continue_on_error` true on the three-item
sample, successful plus failed equals the total. -/
theorem process_batch_invariants_witness :
    (VideoFaceSwapper.process_batch batchSample true).successful +
      (VideoFaceSwapper.process_batch batchSample true).failed =
      (VideoFaceSwapper.process_batch batchSample true).total :=
  (process_batch_invariants batchSample true).2.2.2 rfl

end Wan22
